import Mathlib

/-!
# Verification of the toontown-otp realtime cluster core

A shallow embedding of the OTP cluster services found under `src/realtime/`
(Message Director, State Server, Client Agent, Database Server), with theorems
settling the behavioural claims about routing, post-remove replay, channel
binding, required-data packing, field-update gating, generate idempotence,
interest management and database object creation.

Python dictionaries are embedded as association lists (`List (Nat × _)` with
`List.lookup`), `collections.deque` as `List` (append at the tail, pop from the
head), byte strings as `List Nat` of byte values, and the cooperative event
loop as explicit state-passing functions that additionally return the list of
observable events (datagrams written to peers, log warnings, …) they produce.
-/

namespace ToontownOTP

/-- A byte string (each entry is one byte value). -/
abbrev Blob := List Nat

/-- Little-endian encoding of `n` into `w` bytes (overflow wraps, as in the
fixed-width writers of `NetworkDatagram`). -/
def encodeUIntLE (w n : Nat) : Blob :=
  (List.range w).map fun i => n / 256 ^ i % 256

/-- `NetworkDatagram.add_header` from `realtime/io.py`: a one-byte channel
count (always 1), the destination channel (u64), the sender channel (u64) and
the message type (u16). -/
def addHeaderBytes (channel sender messageType : Nat) : Blob :=
  encodeUIntLE 1 1 ++ encodeUIntLE 8 channel ++ encodeUIntLE 8 sender ++
    encodeUIntLE 2 messageType

/-! ## Internal control message-type constants

Modelled from the spec: the numeric message-type constants live in
`realtime/types.py`, which is not part of the sources at hand; the spec lists
the control vocabulary (`CONTROL_SET_CHANNEL`, `CONTROL_REMOVE_CHANNEL`,
`CONTROL_ADD_POST_REMOVE`, `CONTROL_CLEAR_POST_REMOVE`, plus the accepted and
ignored `CONTROL_SET_CON_NAME`/`URL` and range messages). The claims depend
only on the constants being pairwise distinct. -/

def CONTROL_SET_CHANNEL : Nat := 2001
def CONTROL_REMOVE_CHANNEL : Nat := 2002
def CONTROL_SET_CON_NAME : Nat := 2004
def CONTROL_SET_CON_URL : Nat := 2005
def CONTROL_ADD_RANGE : Nat := 2008
def CONTROL_REMOVE_RANGE : Nat := 2009
def CONTROL_ADD_POST_REMOVE : Nat := 2010
def CONTROL_CLEAR_POST_REMOVE : Nat := 2011

/-! ## Message Director (`realtime/messagedirector.py`) -/

/-- `MessageHandle`: a queued routed datagram awaiting the flush task. -/
structure MessageHandle where
  channel : Nat
  sender : Nat
  messageType : Nat
  datagram : Blob
  deriving Repr, DecidableEq

/-- A datagram as parsed by `Participant.handle_datagram`: either a control
datagram (channel count 1 and destination `CONTROL_MESSAGE`, carrying a 16-bit
control type and a 64-bit argument channel; for `CONTROL_ADD_POST_REMOVE` the
remaining bytes are a pre-serialized inner datagram, kept here in parsed form)
or a routed datagram (destination channel, sender, message type, payload). -/
inductive MDDatagram where
  | control (messageType : Nat) (argChannel : Nat) (inner : Option MDDatagram)
  | routed (channel sender messageType : Nat) (payload : Blob)

/-- Whether a parsed datagram is a routed (non-control) datagram. -/
def MDDatagram.isRouted : MDDatagram → Bool
  | .routed _ _ _ _ => true
  | .control _ _ _ => false

/-- The Message Director state: the participant table
(`ParticipantInterface._participants`, channel → peer), the pending routed
message queue (`MessageInterface._messages`) and the post-remove store
(`MessageInterface._post_messages`, channel → queue of pre-serialized
datagrams). Peers are identified by a `Nat`. -/
structure MDState where
  participants : List (Nat × Nat)
  messages : List MessageHandle
  postMessages : List (Nat × List MDDatagram)

/-- Observable events of the Message Director model. -/
inductive MDEvent where
  /-- `route_datagram` wrote these bytes to this peer's connection. -/
  | sent (peer : Nat) (bytes : Blob)
  /-- `flush_post_handles` handed this stored datagram to
  `participant.handle_datagram` for the given channel. -/
  | replayed (channel : Nat) (d : MDDatagram)
  /-- `remove_participant` deleted the channel's entry from the table. -/
  | removedMapping (channel : Nat)
  /-- A `notify.warning` path was taken. -/
  | warned
  /-- The recursion fuel ran out (never happens with sufficient fuel). -/
  | fuelOut

/-- `ParticipantInterface.has_participant`. -/
def hasParticipant (st : MDState) (channel : Nat) : Bool :=
  (st.participants.lookup channel).isSome

/-- `ParticipantInterface.get_participant`. -/
def getParticipant (st : MDState) (channel : Nat) : Option Nat :=
  st.participants.lookup channel

/-- `ParticipantInterface.add_participant`: refuses (with a warning) when the
channel is already bound, otherwise inserts the mapping. -/
def addParticipant (st : MDState) (channel peer : Nat) : MDState :=
  if hasParticipant st channel then st
  else { st with participants := (channel, peer) :: st.participants }

/-- Delete a key from an association list (`del dict[key]`). -/
def eraseKey {α : Type} (l : List (Nat × α)) (k : Nat) : List (Nat × α) :=
  l.filter fun p => p.1 ≠ k

/-- `MessageInterface.append_handle`: queue a routed datagram, silently
dropping destination channel 0. -/
def appendHandle (st : MDState) (channel sender messageType : Nat)
    (datagram : Blob) : MDState :=
  if channel = 0 then st
  else { st with messages := st.messages ++ [⟨channel, sender, messageType, datagram⟩] }

/-- `MessageInterface.append_post_handle`: append the datagram to the
channel's post-remove queue (creating it if absent). -/
def appendPostHandle (st : MDState) (channel : Nat) (d : MDDatagram) : MDState :=
  match st.postMessages.lookup channel with
  | none => { st with postMessages := (channel, [d]) :: st.postMessages }
  | some q =>
      { st with postMessages := (channel, q ++ [d]) :: eraseKey st.postMessages channel }

/-- `MessageInterface.clear_post_handles`: drop the channel's post-remove
queue (a debug log if it is absent). -/
def clearPostHandles (st : MDState) (channel : Nat) : MDState :=
  match st.postMessages.lookup channel with
  | none => st
  | some _ => { st with postMessages := eraseKey st.postMessages channel }

/-- The bytes `MessageInterface.route_datagram` writes for a message handle:
the framing header re-prepended via `add_header`, then the queued payload
appended verbatim (`append_data(other_datagram.get_message())`). -/
def routeDatagramBytes (h : MessageHandle) : Blob :=
  addHeaderBytes h.channel h.sender h.messageType ++ h.datagram

/-- The body of `MessageInterface.__flush`: drain the message queue in FIFO
order; messages whose destination has no participant are silently dropped,
the rest are written to the bound peer. -/
def mdFlushLoop (queue : List MessageHandle) (st : MDState) :
    MDState × List MDEvent :=
  match queue with
  | [] => (st, [])
  | h :: rest =>
      match getParticipant st h.channel with
      | none => mdFlushLoop rest st
      | some peer =>
          let r := mdFlushLoop rest st
          (r.1, MDEvent.sent peer (routeDatagramBytes h) :: r.2)

/-- `MessageInterface.__flush`: the whole queue is popped and processed. -/
def mdFlush (st : MDState) : MDState × List MDEvent :=
  mdFlushLoop st.messages { st with messages := [] }

mutual

/-- `Participant.handle_datagram` together with the removal/replay machinery
it can re-enter (`remove_participant` → `flush_post_handles` →
`handle_datagram` …).  The Python code recurses through the event loop; the
embedding threads an explicit fuel that every nested call decrements, which is
irrelevant for any execution the fuel covers. -/
def mdHandleDatagram : Nat → MDState → Nat → MDDatagram → MDState × List MDEvent
  | 0, st, _, _ => (st, [MDEvent.fuelOut])
  | _ + 1, st, _, .routed channel sender messageType payload =>
      (appendHandle st channel sender messageType payload, [])
  | fuel + 1, st, peer, .control messageType argChannel inner =>
      if messageType = CONTROL_SET_CHANNEL then
        -- `register_for_channel` → `interface.add_participant`
        (addParticipant st argChannel peer, [])
      else if messageType = CONTROL_REMOVE_CHANNEL then
        -- `unregister_for_channel` → `interface.remove_participant`
        mdRemoveParticipant fuel st argChannel
      else if messageType = CONTROL_SET_CON_NAME ∨ messageType = CONTROL_SET_CON_URL ∨
          messageType = CONTROL_ADD_RANGE ∨ messageType = CONTROL_REMOVE_RANGE then
        (st, [])
      else if messageType = CONTROL_ADD_POST_REMOVE then
        -- the remaining bytes are stored pre-serialized; `inner` is their
        -- parsed form (an unparseable payload is out of the model's scope)
        match inner with
        | some d => (appendPostHandle st argChannel d, [])
        | none => (st, [])
      else if messageType = CONTROL_CLEAR_POST_REMOVE then
        (clearPostHandles st argChannel, [])
      else
        (st, [MDEvent.warned])

/-- `ParticipantInterface.remove_participant`: warn when the channel is not
bound; otherwise replay the channel's post-remove queue
(`flush_post_handles`) and only then delete the participant mapping. -/
def mdRemoveParticipant : Nat → MDState → Nat → MDState × List MDEvent
  | 0, st, _ => (st, [MDEvent.fuelOut])
  | fuel + 1, st, channel =>
      if hasParticipant st channel then
        let r := mdFlushPostHandles fuel st channel
        ({ r.1 with participants := eraseKey r.1.participants channel },
          r.2 ++ [MDEvent.removedMapping channel])
      else
        (st, [MDEvent.warned])

/-- `MessageInterface.flush_post_handles`: nothing to do when the channel has
no (or an empty) queue; warn when the channel has no participant; otherwise
replay as many datagrams as are queued now and clear the queue. -/
def mdFlushPostHandles : Nat → MDState → Nat → MDState × List MDEvent
  | 0, st, _ => (st, [MDEvent.fuelOut])
  | fuel + 1, st, channel =>
      match st.postMessages.lookup channel with
      | none => (st, [])
      | some [] => (st, [])
      | some q =>
          match getParticipant st channel with
          | none => (st, [MDEvent.warned])
          | some peer =>
              let r := mdReplayLoop fuel q.length st channel peer
              (clearPostHandles r.1 channel, r.2)

/-- The replay loop of `flush_post_handles`: pop the head of the (live)
post-remove queue and process it through the normal dispatch path
(`participant.handle_datagram`), as many times as the queue was long when the
loop started. -/
def mdReplayLoop : Nat → Nat → MDState → Nat → Nat → MDState × List MDEvent
  | 0, _, st, _, _ => (st, [MDEvent.fuelOut])
  | _ + 1, 0, st, _, _ => (st, [])
  | fuel + 1, n + 1, st, channel, peer =>
      match st.postMessages.lookup channel with
      | none => (st, [MDEvent.warned])
      | some [] => (st, [MDEvent.warned])
      | some (d :: rest) =>
          let st0 : MDState :=
            { st with postMessages := (channel, rest) :: eraseKey st.postMessages channel }
          let r1 := mdHandleDatagram fuel st0 peer d
          let r2 := mdReplayLoop fuel n r1.1 channel peer
          (r2.1, MDEvent.replayed channel d :: r1.2 ++ r2.2)

end

/-- The message handle `append_handle` would queue for a parsed datagram when
it is routed (destination 0 is silently dropped). -/
def routedHandle : MDDatagram → Option MessageHandle
  | .routed channel sender messageType payload =>
      if channel = 0 then none else some ⟨channel, sender, messageType, payload⟩
  | .control _ _ _ => none

/-! ### Association-list helper lemmas -/

theorem lookup_cons_self {α : Type} (k : Nat) (v : α) (l : List (Nat × α)) :
    ((k, v) :: l).lookup k = some v := by
  simp [List.lookup]

theorem eraseKey_cons_self {α : Type} (k : Nat) (v : α) (l : List (Nat × α)) :
    eraseKey ((k, v) :: l) k = eraseKey l k := by
  simp [eraseKey]

theorem eraseKey_idem {α : Type} (l : List (Nat × α)) (k : Nat) :
    eraseKey (eraseKey l k) k = eraseKey l k := by
  simp [eraseKey, List.filter_filter]

theorem lookup_eraseKey {α : Type} (l : List (Nat × α)) (k : Nat) :
    (eraseKey l k).lookup k = none := by
  induction l with
  | nil => rfl
  | cons p t ih =>
      by_cases h : p.1 = k
      · simpa [eraseKey, h] using ih
      · obtain ⟨a, b⟩ := p
        simp only [] at h
        simp [eraseKey, List.filter, h, List.lookup, ih, Ne.symm h,
          beq_false_of_ne (Ne.symm h)]
        simpa [eraseKey] using ih

theorem lookup_none_not_mem_keys {α : Type} (l : List (Nat × α)) (k : Nat)
    (h : l.lookup k = none) : k ∉ l.map Prod.fst := by
  induction l with
  | nil => simp
  | cons p t ih =>
      obtain ⟨a, b⟩ := p
      simp only [List.lookup] at h
      by_cases hk : k = a
      · subst hk
        simp at h
      · rw [show (k == a) = false from beq_false_of_ne hk] at h
        simp only [] at h
        simp [hk, ih h]

theorem eraseKey_keys_nodup {α : Type} (l : List (Nat × α)) (k : Nat)
    (h : (l.map Prod.fst).Nodup) : ((eraseKey l k).map Prod.fst).Nodup := by
  have hsub : (eraseKey l k).Sublist l := by
    unfold eraseKey
    exact List.filter_sublist l
  exact (hsub.map Prod.fst).nodup h

/-! ### Participant-table preservation lemmas -/

theorem appendHandle_participants (st : MDState) (c s m : Nat) (b : Blob) :
    (appendHandle st c s m b).participants = st.participants := by
  unfold appendHandle; split <;> rfl

theorem appendHandle_postMessages (st : MDState) (c s m : Nat) (b : Blob) :
    (appendHandle st c s m b).postMessages = st.postMessages := by
  unfold appendHandle; split <;> rfl

theorem appendPostHandle_participants (st : MDState) (c : Nat) (d : MDDatagram) :
    (appendPostHandle st c d).participants = st.participants := by
  unfold appendPostHandle; split <;> rfl

theorem clearPostHandles_participants (st : MDState) (c : Nat) :
    (clearPostHandles st c).participants = st.participants := by
  unfold clearPostHandles; split <;> rfl

theorem clearPostHandles_messages (st : MDState) (c : Nat) :
    (clearPostHandles st c).messages = st.messages := by
  unfold clearPostHandles; split <;> rfl

theorem addParticipant_keys_nodup (st : MDState) (c p : Nat)
    (h : (st.participants.map Prod.fst).Nodup) :
    ((addParticipant st c p).participants.map Prod.fst).Nodup := by
  unfold addParticipant
  by_cases hb : hasParticipant st c
  · simp [hb, h]
  · have hnone : st.participants.lookup c = none := by
      unfold hasParticipant at hb
      cases hl : st.participants.lookup c with
      | none => rfl
      | some q => simp [hl] at hb
    simp only [hb, if_false]
    exact List.nodup_cons.mpr ⟨lookup_none_not_mem_keys _ _ hnone, h⟩

/-- Key invariant behind claim C3: every operation of the Message Director
dispatch keeps the participant table's keys duplicate-free, so each channel is
bound to at most one participant at all times. -/
theorem md_dispatch_keys_nodup : ∀ fuel : Nat,
    (∀ st peer d, (st.participants.map Prod.fst).Nodup →
      ((mdHandleDatagram fuel st peer d).1.participants.map Prod.fst).Nodup) ∧
    (∀ st ch, (st.participants.map Prod.fst).Nodup →
      ((mdRemoveParticipant fuel st ch).1.participants.map Prod.fst).Nodup) ∧
    (∀ st ch, (st.participants.map Prod.fst).Nodup →
      ((mdFlushPostHandles fuel st ch).1.participants.map Prod.fst).Nodup) ∧
    (∀ n st ch peer, (st.participants.map Prod.fst).Nodup →
      ((mdReplayLoop fuel n st ch peer).1.participants.map Prod.fst).Nodup) := by
  intro fuel
  induction fuel with
  | zero =>
      refine ⟨fun st p d h => ?_, fun st c h => ?_, fun st c h => ?_,
        fun n st c p h => ?_⟩ <;>
        simpa [mdHandleDatagram, mdRemoveParticipant, mdFlushPostHandles,
          mdReplayLoop] using h
  | succ fuel ih =>
      obtain ⟨ihD, ihR, ihF, ihL⟩ := ih
      refine ⟨?_, ?_, ?_, ?_⟩
      · intro st peer d h
        match d with
        | .routed c s m p =>
            unfold mdHandleDatagram
            simpa [appendHandle_participants] using h
        | .control mt arg inner =>
            unfold mdHandleDatagram
            split
            · exact addParticipant_keys_nodup st arg peer h
            · split
              · exact ihR st arg h
              · split
                · exact h
                · split
                  · match inner with
                    | some d0 => simpa [appendPostHandle_participants] using h
                    | none => exact h
                  · split
                    · simpa [clearPostHandles_participants] using h
                    · exact h
      · intro st ch h
        unfold mdRemoveParticipant
        split
        · exact eraseKey_keys_nodup _ ch (ihF st ch h)
        · exact h
      · intro st ch h
        unfold mdFlushPostHandles
        split
        · exact h
        · exact h
        · split
          · exact h
          · simpa [clearPostHandles_participants] using ihL _ st ch _ h
      · intro n st ch peer h
        match n with
        | 0 => simpa [mdReplayLoop] using h
        | n + 1 =>
            unfold mdReplayLoop
            split
            · exact h
            · exact h
            · exact ihL n _ ch peer (ihD _ peer _ h)

/-! ### The flush loop drains the queue and routes verbatim -/

theorem mdFlushLoop_spec (queue : List MessageHandle) (st : MDState) :
    mdFlushLoop queue st =
      (st, queue.filterMap fun h =>
        (getParticipant st h.channel).map fun peer =>
          MDEvent.sent peer (routeDatagramBytes h)) := by
  induction queue with
  | nil => rfl
  | cons h rest ih =>
      simp only [mdFlushLoop]
      cases hp : getParticipant st h.channel with
      | none => simp [ih, hp, List.filterMap_cons]
      | some peer => simp [ih, hp, List.filterMap_cons]

/-- Claim C1.  Message Director routing is best-effort and verbatim: the flush
task empties the routed-message queue, and each queued datagram whose
destination channel is bound in the participant table is written exactly once,
to exactly that participant, as the re-prepended framing header
(`add_header(channel, sender, message_type)`) followed by the queued payload
bytes unchanged; a queued datagram whose destination is unbound contributes no
write to any peer (it is silently discarded). -/
theorem md_flush_routes_verbatim_best_effort (st : MDState) :
    mdFlush st =
      ({ st with messages := [] },
        st.messages.filterMap fun h =>
          (getParticipant st h.channel).map fun peer =>
            MDEvent.sent peer (routeDatagramBytes h)) := by
  unfold mdFlush
  rw [mdFlushLoop_spec]
  rfl

/-- Claim C3.  Channel-binding uniqueness with first-wins:
`add_participant` refuses to rebind an already-bound channel (the participant
table is unchanged, so the existing binding survives); consequently a
`CONTROL_SET_CHANNEL` for an already-bound channel leaves the whole Message
Director state unchanged; and every dispatch operation preserves
duplicate-freedom of the table's keys, so each channel maps to at most one
participant at all times. -/
theorem md_channel_binding_first_wins :
    (∀ st channel peer, hasParticipant st channel = true →
      addParticipant st channel peer = st) ∧
    (∀ fuel st peer channel inner, hasParticipant st channel = true →
      mdHandleDatagram (fuel + 1) st peer
        (.control CONTROL_SET_CHANNEL channel inner) = (st, [])) ∧
    (∀ fuel st peer d, (st.participants.map Prod.fst).Nodup →
      ((mdHandleDatagram fuel st peer d).1.participants.map Prod.fst).Nodup) := by
  refine ⟨?_, ?_, ?_⟩
  · intro st channel peer h
    unfold addParticipant
    simp [h]
  · intro fuel st peer channel inner h
    unfold mdHandleDatagram
    simp [addParticipant, h]
  · intro fuel st peer d h
    exact (md_dispatch_keys_nodup fuel).1 st peer d h

/-! ### Post-remove replay (claim C2) -/

theorem mdHandleDatagram_routed_eq (fuel : Nat) (st : MDState) (peer c s m : Nat)
    (p : Blob) :
    mdHandleDatagram (fuel + 1) st peer (.routed c s m p) =
      (appendHandle st c s m p, []) := by
  unfold mdHandleDatagram
  rfl

theorem appendHandle_messages (st : MDState) (c s m : Nat) (p : Blob) :
    (appendHandle st c s m p).messages =
      st.messages ++ (routedHandle (.routed c s m p)).toList := by
  by_cases h : c = 0 <;> simp [appendHandle, routedHandle, h]

/-- The replay loop of `flush_post_handles`, on a queue of routed datagrams:
every queued datagram is popped and dispatched exactly once, in FIFO order,
each dispatch appending its message handle to the routed-message queue; the
post-remove queue for the channel ends empty (and is afterwards cleared by
`flush_post_handles`). -/
theorem mdReplayLoop_routed :
    ∀ (q : List MDDatagram) (fuel : Nat) (st : MDState) (channel peer : Nat),
    st.postMessages.lookup channel = some q →
    (∀ d ∈ q, d.isRouted = true) →
    q.length + 1 ≤ fuel →
    mdReplayLoop fuel q.length st channel peer =
      ({ participants := st.participants,
         messages := st.messages ++ q.filterMap routedHandle,
         postMessages :=
           if q.isEmpty then st.postMessages
           else (channel, []) :: eraseKey st.postMessages channel },
       q.map (MDEvent.replayed channel))
  | [], fuel, st, channel, peer, _, _, h3 => by
      match fuel, h3 with
      | fuel + 1, _ => simp [mdReplayLoop]
  | d :: rest, fuel, st, channel, peer, h1, h2, h3 => by
      match fuel, h3 with
      | fuel + 1, h3 =>
        have hfuel : rest.length + 1 ≤ fuel := by
          simp only [List.length_cons] at h3
          omega
        have hd : d.isRouted = true := h2 d (by simp)
        match d, hd with
        | .routed c s m p, _ =>
          have hone : 1 ≤ fuel := le_trans (Nat.le_add_left 1 rest.length) hfuel
          match fuel, hone with
          | fuel' + 1, _ =>
            show mdReplayLoop (fuel' + 1 + 1) (rest.length + 1) st channel peer = _
            unfold mdReplayLoop
            rw [h1]
            simp only [mdHandleDatagram_routed_eq]
            rw [mdReplayLoop_routed rest (fuel' + 1)
              (appendHandle
                { st with postMessages :=
                    (channel, rest) :: eraseKey st.postMessages channel } c s m p)
              channel peer
              (by simp [appendHandle_postMessages, lookup_cons_self])
              (fun d hd => h2 d (List.mem_cons_of_mem _ hd)) hfuel]
            cases hrest : rest.isEmpty <;>
              simp_all [appendHandle_participants, appendHandle_postMessages,
                appendHandle_messages, eraseKey_cons_self, eraseKey_idem,
                List.filterMap_cons, routedHandle, List.isEmpty_iff] <;>
              by_cases hc : c = 0 <;>
              simp [hc]

/-- `flush_post_handles` on a channel with a bound participant and a
non-empty queue of routed post-remove datagrams: the whole queue is replayed
in order and then deleted from the post-remove store. -/
theorem mdFlushPostHandles_routed (q : List MDDatagram) (fuel : Nat)
    (st : MDState) (channel peer : Nat)
    (h1 : st.postMessages.lookup channel = some q)
    (h2 : ∀ d ∈ q, d.isRouted = true)
    (hne : q ≠ [])
    (hpart : getParticipant st channel = some peer)
    (hfuel : q.length + 2 ≤ fuel) :
    mdFlushPostHandles fuel st channel =
      ({ participants := st.participants,
         messages := st.messages ++ q.filterMap routedHandle,
         postMessages := eraseKey st.postMessages channel },
       q.map (MDEvent.replayed channel)) := by
  match fuel, hfuel with
  | fuel + 1, hfuel =>
    have hfuel' : q.length + 1 ≤ fuel := by omega
    match q, hne with
    | d :: rest, _ =>
      unfold mdFlushPostHandles
      rw [h1]
      simp only [hpart]
      rw [mdReplayLoop_routed (d :: rest) fuel st channel peer h1 h2 hfuel']
      simp [clearPostHandles, lookup_cons_self, eraseKey_cons_self, eraseKey_idem]

/-- Claim C2.  Post-remove replay: removing a channel from routing (the
`remove_participant` path shared by `CONTROL_REMOVE_CHANNEL` and peer
disconnect), when the channel has a bound participant and a registered
post-remove queue of `n` routed datagrams, replays exactly those `n` datagrams
exactly once each, in the FIFO order they were registered, through the normal
dispatch path (`participant.handle_datagram`, which queues each routed
datagram as if the peer had sent it), and all of this strictly before the
channel's participant mapping is deleted (the `removedMapping` event comes
after every `replayed` event); afterwards the channel's post-remove queue and
participant mapping are gone. -/
theorem md_post_remove_replay_fifo (q : List MDDatagram) (fuel : Nat)
    (st : MDState) (channel peer : Nat)
    (hpart : getParticipant st channel = some peer)
    (hq : st.postMessages.lookup channel = some q)
    (hne : q ≠ [])
    (hrouted : ∀ d ∈ q, d.isRouted = true)
    (hfuel : q.length + 3 ≤ fuel) :
    ∃ st' : MDState,
      mdRemoveParticipant fuel st channel =
        (st', q.map (MDEvent.replayed channel) ++ [MDEvent.removedMapping channel]) ∧
      st'.postMessages.lookup channel = none ∧
      st'.participants.lookup channel = none ∧
      st'.messages = st.messages ++ q.filterMap routedHandle := by
  match fuel, hfuel with
  | fuel + 1, hfuel =>
    have hfuel' : q.length + 2 ≤ fuel := by omega
    have hhas : hasParticipant st channel = true := by
      unfold hasParticipant
      unfold getParticipant at hpart
      simp [hpart]
    refine ⟨{ participants := eraseKey st.participants channel,
              messages := st.messages ++ q.filterMap routedHandle,
              postMessages := eraseKey st.postMessages channel }, ?_, ?_, ?_, ?_⟩
    · unfold mdRemoveParticipant
      rw [if_pos hhas,
        mdFlushPostHandles_routed q fuel st channel peer hq hrouted hne hpart hfuel']
    · exact lookup_eraseKey st.postMessages channel
    · exact lookup_eraseKey st.participants channel
    · rfl

/-- Witness for claim C2: channel 7 is bound to peer 0 and has two routed
post-remove datagrams registered; removing it replays both in order, then
deletes the mapping, leaving the queue empty. -/
theorem md_post_remove_replay_fifo_witness :
    ∃ st' : MDState,
      mdRemoveParticipant 9
        ⟨[(7, 0)], [], [(7, [.routed 9 1 55 [1, 2], .routed 8 1 56 []])]⟩ 7 =
        (st', [MDEvent.replayed 7 (.routed 9 1 55 [1, 2]),
               MDEvent.replayed 7 (.routed 8 1 56 []),
               MDEvent.removedMapping 7]) ∧
      st'.postMessages.lookup 7 = none ∧
      st'.participants.lookup 7 = none ∧
      st'.messages = [] ++ [⟨9, 1, 55, [1, 2]⟩, ⟨8, 1, 56, []⟩] := by
  have h := md_post_remove_replay_fifo
    [.routed 9 1 55 [1, 2], .routed 8 1 56 []] 9
    ⟨[(7, 0)], [], [(7, [.routed 9 1 55 [1, 2], .routed 8 1 56 []])]⟩ 7 0
    rfl rfl (by simp)
    (by
      intro d hd
      rcases List.mem_cons.mp hd with rfl | hd
      · rfl
      rcases List.mem_cons.mp hd with rfl | hd
      · rfl
      · cases hd)
    (by simp)
  simpa [routedHandle] using h

/-- Witness for claim C3 at a concrete state: channel 5 is bound to peer 1;
binding it again for peer 2 is rejected both at the table level and at the
dispatch level, and the keys of a concrete two-entry table stay nodup. -/
theorem md_channel_binding_first_wins_witness :
    addParticipant ⟨[(5, 1)], [], []⟩ 5 2 = ⟨[(5, 1)], [], []⟩ ∧
    mdHandleDatagram 1 ⟨[(5, 1)], [], []⟩ 2
      (.control CONTROL_SET_CHANNEL 5 none) = (⟨[(5, 1)], [], []⟩, []) ∧
    (((mdHandleDatagram 1 ⟨[(5, 1)], [], []⟩ 2
      (.control CONTROL_SET_CHANNEL 6 none)).1.participants.map Prod.fst).Nodup) := by
  refine ⟨?_, ?_, ?_⟩
  · exact md_channel_binding_first_wins.1 ⟨[(5, 1)], [], []⟩ 5 2 (by decide)
  · exact md_channel_binding_first_wins.2.1 0 ⟨[(5, 1)], [], []⟩ 2 5 none (by decide)
  · exact md_channel_binding_first_wins.2.2 1 ⟨[(5, 1)], [], []⟩ 2
      (.control CONTROL_SET_CHANNEL 6 none) (by decide)

/-! ## State Server (`realtime/stateserver.py`)

The external type catalog (panda's `DCClass`/`DCField`/`DCPacker`) is an
opaque oracle for the core; it is embedded as a record of the per-field policy
flags the State Server consults, with packed argument tuples kept as opaque
blobs.  A packed required-data block is represented as the ordered list of
`(field number, packed args)` pairs it serializes. -/

/-- A field descriptor of the type catalog, carrying the policy flags the
core reads (`is_required`, `is_broadcast`, `is_ram`, `is_db`, `is_ownsend`,
`is_clsend`, `is_airecv`, `has_default_value`/`get_default_value`). -/
structure DCField where
  number : Nat
  isRequired : Bool
  isBroadcast : Bool
  isRam : Bool
  isDb : Bool
  isOwnsend : Bool
  isClsend : Bool
  isAirecv : Bool
  hasDefaultValue : Bool
  defaultValue : Blob
  deriving Repr, DecidableEq

/-- A class descriptor: its number and its inherited field list in
declaration order. -/
structure DClass where
  number : Nat
  fields : List DCField
  deriving Repr, DecidableEq

/-- `DCClass.get_field_by_index`: resolve a field by its field number. -/
def DClass.fieldByNumber (cls : DClass) (n : Nat) : Option DCField :=
  cls.fields.find? fun f => f.number == n

/-- A state object (`StateObject.__init__` attributes).  The `old*` fields
are the previous-generation snapshots kept by the property setters. -/
structure StateObject where
  doId : Nat
  oldAiChannel : Nat
  aiChannel : Nat
  oldOwnerId : Nat
  ownerId : Nat
  oldParentId : Nat
  parentId : Nat
  oldZoneId : Nat
  zoneId : Nat
  dcClass : DClass
  hasOther : Bool
  requiredFields : List (Nat × Blob)
  otherFields : List (Nat × Blob)
  zoneObjects : List (Nat × List Nat)
  deriving Repr, DecidableEq

/-- Key order on `(field number, packed args)` pairs:
`sorted(self._required_fields.items())` sorts by the (distinct) keys. -/
def pairKeyLE (a b : Nat × Blob) : Prop := a.1 ≤ b.1

instance : DecidableRel pairKeyLE := fun a b => Nat.decLe a.1 b.1

instance : IsTotal (Nat × Blob) pairKeyLE := ⟨fun a b => Nat.le_total a.1 b.1⟩

instance : IsTrans (Nat × Blob) pairKeyLE := ⟨fun _ _ _ => Nat.le_trans⟩

/-- `collections.OrderedDict(sorted(items))`: the items in ascending key
order. -/
def sortPairsByKey (l : List (Nat × Blob)) : List (Nat × Blob) :=
  List.insertionSort pairKeyLE l

theorem mem_sortPairsByKey (l : List (Nat × Blob)) (p : Nat × Blob) :
    p ∈ sortPairsByKey l ↔ p ∈ l :=
  (List.perm_insertionSort pairKeyLE l).mem_iff

theorem sorted_sortPairsByKey (l : List (Nat × Blob)) :
    List.Sorted pairKeyLE (sortPairsByKey l) :=
  List.sorted_insertionSort pairKeyLE l

/-- `StateObject.append_required_data`: iterate the stored required fields in
ascending field-number order and pack each one, skipping — when
`broadcast_only` is set — every field not flagged `broadcast`.  (A stored
number that does not resolve in the class is a fatal `notify.error` in the
source; such entries contribute nothing here and are excluded by hypothesis
in the theorems.) -/
def appendRequiredData (cls : DClass) (required : List (Nat × Blob))
    (broadcastOnly : Bool) : List (Nat × Blob) :=
  (sortPairsByKey required).filterMap fun p =>
    match cls.fieldByNumber p.1 with
    | none => none
    | some f => if broadcastOnly && !f.isBroadcast then none else some p

/-! Message-type constants of the entry datagrams (modelled from the spec:
numeric values live in `realtime/types.py`, not under the sources at hand;
only distinctness matters). -/

def STATESERVER_OBJECT_ENTER_OWNER_WITH_REQUIRED : Nat := 3040
def STATESERVER_OBJECT_ENTER_OWNER_WITH_REQUIRED_OTHER : Nat := 3041
def STATESERVER_OBJECT_ENTER_AI_WITH_REQUIRED : Nat := 3042
def STATESERVER_OBJECT_ENTER_AI_WITH_REQUIRED_OTHER : Nat := 3043
def STATESERVER_OBJECT_ENTER_LOCATION_WITH_REQUIRED : Nat := 3044
def STATESERVER_OBJECT_ENTER_LOCATION_WITH_REQUIRED_OTHER : Nat := 3045

/-- An `ENTER_*_WITH_REQUIRED[_OTHER]` datagram in parsed form: the header,
the `(doId, parentId, zoneId, classNumber)` preamble, the required-data block
and — for the `_OTHER` variants — the other-fields block. -/
structure EntryDatagram where
  dest : Nat
  sender : Nat
  messageType : Nat
  doId : Nat
  parentId : Nat
  zoneId : Nat
  classNumber : Nat
  requiredData : List (Nat × Blob)
  otherData : Option (List (Nat × Blob))
  deriving Repr, DecidableEq

/-- `StateObject.handle_send_owner_entry`: all required fields
(`broadcast_only=False`). -/
def handleSendOwnerEntry (obj : StateObject) (channel : Nat) : EntryDatagram :=
  { dest := channel
    sender := obj.doId
    messageType :=
      if obj.hasOther then STATESERVER_OBJECT_ENTER_OWNER_WITH_REQUIRED_OTHER
      else STATESERVER_OBJECT_ENTER_OWNER_WITH_REQUIRED
    doId := obj.doId
    parentId := obj.parentId
    zoneId := obj.zoneId
    classNumber := obj.dcClass.number
    requiredData := appendRequiredData obj.dcClass obj.requiredFields false
    otherData := if obj.hasOther then some obj.otherFields else none }

/-- `StateObject.handle_send_ai_entry`: `broadcast_only=not self._owner_id`,
so broadcast-only exactly when the object has no owner. -/
def handleSendAiEntry (obj : StateObject) (aiChannel : Nat) : EntryDatagram :=
  { dest := aiChannel
    sender := obj.doId
    messageType :=
      if obj.hasOther then STATESERVER_OBJECT_ENTER_AI_WITH_REQUIRED_OTHER
      else STATESERVER_OBJECT_ENTER_AI_WITH_REQUIRED
    doId := obj.doId
    parentId := obj.parentId
    zoneId := obj.zoneId
    classNumber := obj.dcClass.number
    requiredData := appendRequiredData obj.dcClass obj.requiredFields (obj.ownerId == 0)
    otherData := if obj.hasOther then some obj.otherFields else none }

/-- `StateObject.handle_send_location_entry`: the `broadcast_only=True`
default of `append_required_data`. -/
def handleSendLocationEntry (obj : StateObject) (channel : Nat) : EntryDatagram :=
  { dest := channel
    sender := obj.doId
    messageType :=
      if obj.hasOther then STATESERVER_OBJECT_ENTER_LOCATION_WITH_REQUIRED_OTHER
      else STATESERVER_OBJECT_ENTER_LOCATION_WITH_REQUIRED
    doId := obj.doId
    parentId := obj.parentId
    zoneId := obj.zoneId
    classNumber := obj.dcClass.number
    requiredData := appendRequiredData obj.dcClass obj.requiredFields true
    otherData := if obj.hasOther then some obj.otherFields else none }

/-- Whether a stored required-field entry resolves to a broadcast-flagged
field of the class. -/
def isBroadcastEntry (cls : DClass) (p : Nat × Blob) : Bool :=
  ((cls.fieldByNumber p.1).map DCField.isBroadcast).getD false

theorem appendRequiredData_filterMap (cls : DClass) (bOnly : Bool) :
    ∀ l : List (Nat × Blob), (∀ p ∈ l, (cls.fieldByNumber p.1).isSome) →
    (l.filterMap fun p =>
      match cls.fieldByNumber p.1 with
      | none => none
      | some f => if bOnly && !f.isBroadcast then none else some p) =
    l.filter fun p => !bOnly || isBroadcastEntry cls p
  | [], _ => rfl
  | p :: t, h => by
      have hp := h p (by simp)
      cases hf : cls.fieldByNumber p.1 with
      | none => simp [hf] at hp
      | some f =>
          have ih := appendRequiredData_filterMap cls bOnly t
            fun q hq => h q (List.mem_cons_of_mem _ hq)
          rw [List.filterMap_cons, List.filter_cons]
          cases bOnly <;> cases hb : f.isBroadcast <;>
            simp_all [isBroadcastEntry, hf]

theorem appendRequiredData_all (cls : DClass) (required : List (Nat × Blob))
    (h : ∀ p ∈ required, (cls.fieldByNumber p.1).isSome) :
    appendRequiredData cls required false = sortPairsByKey required := by
  unfold appendRequiredData
  rw [appendRequiredData_filterMap cls false (sortPairsByKey required)
    fun p hp => h p ((mem_sortPairsByKey required p).mp hp)]
  simp

theorem appendRequiredData_broadcast (cls : DClass) (required : List (Nat × Blob))
    (h : ∀ p ∈ required, (cls.fieldByNumber p.1).isSome) :
    appendRequiredData cls required true =
      (sortPairsByKey required).filter (isBroadcastEntry cls) := by
  unfold appendRequiredData
  rw [appendRequiredData_filterMap cls true (sortPairsByKey required)
    fun p hp => h p ((mem_sortPairsByKey required p).mp hp)]
  simp

/-- Claim C4.  Required-data packing contract, for every state object whose
stored required field numbers resolve in its class:
`ENTER_LOCATION_WITH_REQUIRED[_OTHER]` carries exactly the required fields
flagged `broadcast`, in ascending field-number order;
`ENTER_OWNER_WITH_REQUIRED[_OTHER]` carries all required fields;
`ENTER_AI_WITH_REQUIRED[_OTHER]` carries only the broadcast-flagged required
fields when `ownerId == 0` and all required fields when the object has an
owner. -/
theorem ss_required_data_packing (obj : StateObject) (ch : Nat)
    (h : ∀ p ∈ obj.requiredFields, (obj.dcClass.fieldByNumber p.1).isSome) :
    (handleSendLocationEntry obj ch).requiredData =
      (sortPairsByKey obj.requiredFields).filter (isBroadcastEntry obj.dcClass) ∧
    (handleSendOwnerEntry obj ch).requiredData = sortPairsByKey obj.requiredFields ∧
    (handleSendAiEntry obj ch).requiredData =
      (if obj.ownerId = 0 then
        (sortPairsByKey obj.requiredFields).filter (isBroadcastEntry obj.dcClass)
      else sortPairsByKey obj.requiredFields) ∧
    List.Sorted pairKeyLE (handleSendLocationEntry obj ch).requiredData ∧
    (∀ p, p ∈ (handleSendLocationEntry obj ch).requiredData ↔
      p ∈ obj.requiredFields ∧ isBroadcastEntry obj.dcClass p = true) := by
  have hloc : (handleSendLocationEntry obj ch).requiredData =
      (sortPairsByKey obj.requiredFields).filter (isBroadcastEntry obj.dcClass) :=
    appendRequiredData_broadcast obj.dcClass obj.requiredFields h
  refine ⟨hloc, appendRequiredData_all obj.dcClass obj.requiredFields h, ?_, ?_, ?_⟩
  · by_cases ho : obj.ownerId = 0
    · simp only [ho, if_pos rfl]
      simpa [handleSendAiEntry, ho] using
        appendRequiredData_broadcast obj.dcClass obj.requiredFields h
    · simp only [ho, if_neg ho]
      have : (obj.ownerId == 0) = false := by
        simpa using ho
      simpa [handleSendAiEntry, this] using
        appendRequiredData_all obj.dcClass obj.requiredFields h
  · rw [hloc]
    exact (sorted_sortPairsByKey obj.requiredFields).filter _
  · intro p
    rw [hloc, List.mem_filter, mem_sortPairsByKey]

/-- Witness for claim C4 at a concrete object: two required fields, numbers 2
(broadcast) and 1 (not broadcast); the location entry carries only field 2,
the owner entry carries fields 1 and 2 in field-number order, and the AI
entry carries only field 2 because the object has no owner. -/
theorem ss_required_data_packing_witness :
    (∀ p ∈ [(2, [9]), (1, [7])],
      ((DClass.mk 4 [⟨1, true, false, false, false, false, false, false, false, []⟩,
        ⟨2, true, true, false, false, false, false, false, false, []⟩]).fieldByNumber
          p.1).isSome) ∧
    (handleSendLocationEntry
      ⟨50, 0, 0, 0, 0, 0, 0, 0, 0,
        DClass.mk 4 [⟨1, true, false, false, false, false, false, false, false, []⟩,
          ⟨2, true, true, false, false, false, false, false, false, []⟩],
        false, [(2, [9]), (1, [7])], [], []⟩ 77).requiredData = [(2, [9])] ∧
    (handleSendOwnerEntry
      ⟨50, 0, 0, 0, 0, 0, 0, 0, 0,
        DClass.mk 4 [⟨1, true, false, false, false, false, false, false, false, []⟩,
          ⟨2, true, true, false, false, false, false, false, false, []⟩],
        false, [(2, [9]), (1, [7])], [], []⟩ 77).requiredData =
      [(1, [7]), (2, [9])] ∧
    (handleSendAiEntry
      ⟨50, 0, 0, 0, 0, 0, 0, 0, 0,
        DClass.mk 4 [⟨1, true, false, false, false, false, false, false, false, []⟩,
          ⟨2, true, true, false, false, false, false, false, false, []⟩],
        false, [(2, [9]), (1, [7])], [], []⟩ 77).requiredData = [(2, [9])] := by
  refine ⟨by decide, ?_, ?_, ?_⟩
  · have := (ss_required_data_packing
      ⟨50, 0, 0, 0, 0, 0, 0, 0, 0,
        DClass.mk 4 [⟨1, true, false, false, false, false, false, false, false, []⟩,
          ⟨2, true, true, false, false, false, false, false, false, []⟩],
        false, [(2, [9]), (1, [7])], [], []⟩ 77 (by decide)).1
    rw [this]; decide
  · have := (ss_required_data_packing
      ⟨50, 0, 0, 0, 0, 0, 0, 0, 0,
        DClass.mk 4 [⟨1, true, false, false, false, false, false, false, false, []⟩,
          ⟨2, true, true, false, false, false, false, false, false, []⟩],
        false, [(2, [9]), (1, [7])], [], []⟩ 77 (by decide)).2.1
    rw [this]; decide
  · have := (ss_required_data_packing
      ⟨50, 0, 0, 0, 0, 0, 0, 0, 0,
        DClass.mk 4 [⟨1, true, false, false, false, false, false, false, false, []⟩,
          ⟨2, true, true, false, false, false, false, false, false, []⟩],
        false, [(2, [9]), (1, [7])], [], []⟩ 77 (by decide)).2.2.1
    rw [this]; decide

/-- A shard record (`Shard.__init__`): the AI channel, its district object
id, name and population.  The shard registry (`ShardManager.shards`) maps the
AI channel to this record. -/
structure Shard where
  channel : Nat
  districtId : Nat
  name : String
  population : Nat
  deriving Repr, DecidableEq

/-! ### Field updates (`StateObject.handle_update_field`, claim C5) -/

/-- The unpack outcome of an `OBJECT_UPDATE_FIELD` payload: an empty payload
means a no-args update (`field_args = None`), otherwise the packed arguments
unpack to a blob or raise (`RuntimeError` → the update is ignored). -/
inductive FieldArgs where
  | noArgs
  | ok (b : Blob)
  | unpackError
  deriving Repr, DecidableEq

/-- The `Option Blob` view of an unpack outcome (`None` vs the args). -/
def FieldArgs.toOption : FieldArgs → Option Blob
  | .noArgs => none
  | .ok b => some b
  | .unpackError => none

/-- Messages the State Server emits (in parsed form). -/
inductive SSMsg where
  | entry (d : EntryDatagram)
  | changingOwner (dest doId newOwner oldOwner : Nat)
  | changingAi (dest doId oldAi newAi : Nat)
  | changingLocation (dest doId parentId zoneId : Nat)
  | departure (dest doId : Nat)
  | locationAck (dest doId oldParent oldZone newParent newZone : Nat)
  | updateField (dest sender doId fieldNumber : Nat) (args : Option Blob)
  | saveField (doId fieldNumber : Nat) (args : Blob)
  deriving Repr, DecidableEq

/-- `StateObject.get_zone_from_child`: the first zone (in dictionary order)
whose object list contains the child. -/
def getZoneFromChild (obj : StateObject) (childDoId : Nat) : Option Nat :=
  (obj.zoneObjects.find? fun zp => zp.2.contains childDoId).map Prod.fst

/-- `StateObject.has_child`. -/
def hasChild (obj : StateObject) (childDoId : Nat) : Bool :=
  (getZoneFromChild obj childDoId).isSome

/-- `StateObject.get_zone_objects`: resolve a zone's doIds through the object
registry, skipping unknown ids. -/
def getZoneObjects (objects : List (Nat × StateObject)) (parent : StateObject)
    (zoneId : Nat) : List StateObject :=
  match parent.zoneObjects.lookup zoneId with
  | none => []
  | some ids => ids.filterMap fun i => objects.lookup i

/-- `StateObject.get_all_zone_objects`. -/
def getAllZoneObjects (objects : List (Nat × StateObject))
    (parent : StateObject) : List StateObject :=
  parent.zoneObjects.flatMap fun zp => getZoneObjects objects parent zp.1

/-- `StateObjectManager.handle_updating_field`: fan a broadcast field update
out to the owner of every owned object under the updated object's parent,
skipping the excluded doIds.  (The `sender` parameter is carried but unused,
as in the source.) -/
def handleUpdatingField (objects : List (Nat × StateObject))
    (stateObject : StateObject) (sender fieldNumber : Nat) (args : Option Blob)
    (excludes : List Nat) : List SSMsg :=
  if stateObject.parentId = 0 then []
  else
    match objects.lookup stateObject.parentId with
    | none => []
    | some parent =>
        if !hasChild parent stateObject.doId then []
        else
          ((getAllZoneObjects objects parent).filter fun z =>
              0 < z.ownerId && !(excludes.contains z.doId)).map fun z =>
            SSMsg.updateField z.ownerId stateObject.doId stateObject.doId
              fieldNumber args

/-- Python dict assignment `d[k] = v`: overwrite in place, or append a new
key at the end. -/
def dictSet (l : List (Nat × Blob)) (k : Nat) (v : Blob) : List (Nat × Blob) :=
  if (l.lookup k).isSome then l.map fun p => if p.1 = k then (k, v) else p
  else l ++ [(k, v)]

/-- `get_avatar_id_from_connection_channel` (`realtime/io.py`): the low 32
bits of the channel. -/
def avatarIdOfChannel (channel : Nat) : Nat := channel % 2 ^ 32

/-- Store a ram field into `required` or `other` according to its
`is_required` flag (the shared tail of both update paths). -/
def storeRamField (obj : StateObject) (field : DCField) (b : Blob) : StateObject :=
  if field.isRequired then
    { obj with requiredFields := dictSet obj.requiredFields field.number b }
  else
    { obj with otherFields := dictSet obj.otherFields field.number b }

/-- The allowed tail of the client update path: echo to the AI, broadcast
fan-out excluding the sender avatar, and the conditional ram store (which
requires `has_other`). -/
def clientUpdateTail (objects : List (Nat × StateObject)) (obj : StateObject)
    (sender : Nat) (field : DCField) (fieldArgs : Option Blob)
    (avatarId : Nat) : StateObject × List SSMsg :=
  let echo := SSMsg.updateField obj.aiChannel sender obj.doId field.number fieldArgs
  let fan :=
    if field.isBroadcast then
      handleUpdatingField objects obj sender field.number fieldArgs [avatarId]
    else []
  match fieldArgs with
  | none => (obj, echo :: fan)
  | some b =>
      if field.isRam then
        if !obj.hasOther then (obj, echo :: fan)
        else (storeRamField obj field b, echo :: fan)
      else (obj, echo :: fan)

/-- `StateObject.handle_update_field`: resolve the field (unknown → drop),
honour the unpack outcome (failure → drop), then branch on whether the sender
channel is a registered shard.

Client path: the sender's avatar id (low 32 bits) must be non-zero; if the
field is `ownsend` the sender must be the owner, otherwise the field must be
`clsend` — else drop with a warning.  If allowed: echo to the AI channel,
fan out if `broadcast` (excluding the sender's avatar id), and — when args are
present, the field is `ram` and the object `has_other` — store them.

AI path: echo to the owner, fan out if `broadcast` (excluding the object
itself, with the parent as the carried sender argument), store `ram` args
(setting `has_other`), and forward `db`-flagged args to the database. -/
def handleUpdateField (shards : List (Nat × Shard))
    (objects : List (Nat × StateObject)) (obj : StateObject)
    (sender fieldId : Nat) (args : FieldArgs) : StateObject × List SSMsg :=
  match obj.dcClass.fieldByNumber fieldId with
  | none => (obj, [])
  | some field =>
      match args with
      | .unpackError => (obj, [])
      | _ =>
          let fieldArgs := args.toOption
          if (shards.lookup sender).isSome = false then
            let avatarId := avatarIdOfChannel sender
            if avatarId = 0 then (obj, [])
            else
              if field.isOwnsend then
                if sender ≠ obj.ownerId then (obj, [])
                else
                  clientUpdateTail objects obj sender field fieldArgs avatarId
              else
                if !field.isClsend then (obj, [])
                else
                  clientUpdateTail objects obj sender field fieldArgs avatarId
          else
            let echo := SSMsg.updateField obj.ownerId obj.aiChannel obj.doId
              field.number fieldArgs
            let fan :=
              if field.isBroadcast then
                handleUpdatingField objects obj obj.parentId field.number
                  fieldArgs [obj.doId]
              else []
            match fieldArgs with
            | none => (obj, echo :: fan)
            | some b =>
                let obj1 :=
                  if field.isRam then { storeRamField obj field b with hasOther := true }
                  else obj
                let save :=
                  if field.isDb then [SSMsg.saveField obj.doId field.number b]
                  else []
                (obj1, echo :: fan ++ save)

/-- The gate stated by the specification for client-originated updates:
allowed iff the field is `clsend`, or it is `ownsend` and the sender is the
current owner. -/
def specClientGateAllows (field : DCField) (sender ownerId : Nat) : Bool :=
  field.isClsend || (field.isOwnsend && sender == ownerId)

/-- The gate the code actually implements for client-originated updates:
the sender's avatar id must be non-zero, and then `ownsend` takes precedence:
an `ownsend` field requires the sender to be the owner (even when also
`clsend`); a non-`ownsend` field requires `clsend`. -/
def codeClientGateAllows (field : DCField) (sender ownerId : Nat) : Bool :=
  avatarIdOfChannel sender != 0 &&
    (if field.isOwnsend then sender == ownerId else field.isClsend)

theorem clientUpdateTail_ne_nil (objects : List (Nat × StateObject))
    (obj : StateObject) (sender : Nat) (field : DCField)
    (fieldArgs : Option Blob) (avatarId : Nat) :
    (clientUpdateTail objects obj sender field fieldArgs avatarId).2 ≠ [] := by
  unfold clientUpdateTail
  cases fieldArgs with
  | none => simp
  | some b =>
      by_cases hr : field.isRam <;> by_cases ho : obj.hasOther <;> simp [hr, ho]

/-- Counterexample to claim C5 as stated.  A field flagged both `clsend` and
`ownsend`, updated by a client (sender channel 5, avatar id 5) that is not
the owner (ownerId 100): the claim's gate (`clsend`, or `ownsend` and owner)
allows the update, but `handle_update_field` drops it — the `ownsend` branch
takes precedence and rejects the non-owner before `clsend` is consulted —
leaving the object unchanged and emitting nothing. -/
theorem ss_client_gate_counterexample :
    specClientGateAllows
      ⟨7, false, false, false, false, true, true, false, false, []⟩ 5 100 = true ∧
    handleUpdateField [] []
      ⟨42, 0, 1000, 0, 100, 0, 0, 0, 0,
        ⟨1, [⟨7, false, false, false, false, true, true, false, false, []⟩]⟩,
        false, [], [], []⟩ 5 7 (.ok [1]) =
      (⟨42, 0, 1000, 0, 100, 0, 0, 0, 0,
        ⟨1, [⟨7, false, false, false, false, true, true, false, false, []⟩]⟩,
        false, [], [], []⟩, []) := by
  exact ⟨by decide, by decide⟩

theorem handleUpdateField_client (shards : List (Nat × Shard))
    (objects : List (Nat × StateObject)) (obj : StateObject)
    (sender fieldId : Nat) (args : FieldArgs) (field : DCField)
    (hfield : obj.dcClass.fieldByNumber fieldId = some field)
    (hargs : args ≠ .unpackError)
    (hclient : shards.lookup sender = none) :
    handleUpdateField shards objects obj sender fieldId args =
      if avatarIdOfChannel sender = 0 then (obj, [])
      else if field.isOwnsend then
        if sender ≠ obj.ownerId then (obj, [])
        else clientUpdateTail objects obj sender field args.toOption
          (avatarIdOfChannel sender)
      else if !field.isClsend then (obj, [])
      else clientUpdateTail objects obj sender field args.toOption
        (avatarIdOfChannel sender) := by
  have hshard : (shards.lookup sender).isSome = false := by simp [hclient]
  unfold handleUpdateField
  rw [hfield]
  match args, hargs with
  | .noArgs, _ => simp [hshard]
  | .ok b, _ => simp [hshard]

/-- Claim C5, amended.  For a client-originated `OBJECT_UPDATE_FIELD` (sender
not a registered shard) on a known field with a well-formed payload, the
update is processed (echo to the AI, optional broadcast fan-out, optional ram
storage — in particular at least the echo is emitted) if and only if the
sender's avatar id (low 32 bits of the channel) is non-zero and — `ownsend`
taking precedence — the field is `ownsend` and the sender is the current
owner, or the field is not `ownsend` and is `clsend`; otherwise the update is
dropped with a warning, leaving the object unchanged and emitting no message
(so it never reaches the fan-out). -/
theorem ss_client_gate_amended (shards : List (Nat × Shard))
    (objects : List (Nat × StateObject)) (obj : StateObject)
    (sender fieldId : Nat) (args : FieldArgs) (field : DCField)
    (hfield : obj.dcClass.fieldByNumber fieldId = some field)
    (hargs : args ≠ .unpackError)
    (hclient : shards.lookup sender = none) :
    ((handleUpdateField shards objects obj sender fieldId args).2 ≠ [] ↔
      codeClientGateAllows field sender obj.ownerId = true) ∧
    (codeClientGateAllows field sender obj.ownerId = false →
      handleUpdateField shards objects obj sender fieldId args = (obj, [])) := by
  rw [handleUpdateField_client shards objects obj sender fieldId args field
    hfield hargs hclient]
  unfold codeClientGateAllows
  by_cases h0 : avatarIdOfChannel sender = 0
  · rw [if_pos h0]
    simp [h0]
  · rw [if_neg h0]
    by_cases how : field.isOwnsend
    · rw [if_pos how]
      by_cases hso : sender = obj.ownerId
      · rw [if_neg (by simpa using hso)]
        have h0' : ¬avatarIdOfChannel obj.ownerId = 0 := by rwa [hso] at h0
        simp [h0, how, hso, clientUpdateTail_ne_nil, h0']
      · rw [if_pos hso]
        simp [h0, how, hso]
    · rw [if_neg how]
      cases hcl : field.isClsend with
      | false =>
          rw [if_pos (by simp [hcl])]
          simp [h0, how, hcl]
      | true =>
          rw [if_neg (by simp [hcl])]
          simp [h0, how, hcl, clientUpdateTail_ne_nil]

/-- Witness for the amended claim C5: a `clsend`-only field updated by a
non-owner client is processed (the message list is non-empty), and the same
field sent from a channel with avatar id 0 is dropped with the object
unchanged. -/
theorem ss_client_gate_amended_witness :
    (((handleUpdateField [] []
        ⟨42, 0, 1000, 0, 100, 0, 0, 0, 0,
          ⟨1, [⟨7, false, false, false, false, false, true, false, false, []⟩]⟩,
          false, [], [], []⟩ 5 7 (.ok [1])).2 ≠ [] ↔
      codeClientGateAllows
        ⟨7, false, false, false, false, false, true, false, false, []⟩ 5 100 = true) ∧
    (codeClientGateAllows
        ⟨7, false, false, false, false, false, true, false, false, []⟩ 5 100 = false →
      handleUpdateField [] []
        ⟨42, 0, 1000, 0, 100, 0, 0, 0, 0,
          ⟨1, [⟨7, false, false, false, false, false, true, false, false, []⟩]⟩,
          false, [], [], []⟩ 5 7 (.ok [1]) =
        (⟨42, 0, 1000, 0, 100, 0, 0, 0, 0,
          ⟨1, [⟨7, false, false, false, false, false, true, false, false, []⟩]⟩,
          false, [], [], []⟩, []))) := by
  exact ss_client_gate_amended [] []
    ⟨42, 0, 1000, 0, 100, 0, 0, 0, 0,
      ⟨1, [⟨7, false, false, false, false, false, true, false, false, []⟩]⟩,
      false, [], [], []⟩ 5 7 (.ok [1])
    ⟨7, false, false, false, false, false, true, false, false, []⟩
    (by decide) (by decide) rfl

/-! ### Generate and SET_AI (`StateServer.handle_generate`,
`StateObject.handle_set_ai`; claims C6 and C10) -/

/-- `StateObjectManager.handle_changing_location`: tell the object's old
parent (if any) and new parent (if any) that it moved. -/
def managerChangingLocation (obj : StateObject) : List SSMsg :=
  (if obj.oldParentId ≠ 0 then
    [SSMsg.changingLocation obj.oldParentId obj.doId obj.parentId obj.zoneId]
  else []) ++
  (if obj.parentId ≠ 0 then
    [SSMsg.changingLocation obj.parentId obj.doId obj.parentId obj.zoneId]
  else [])

/-- `StateObject.handle_set_ai`: a no-op when the requested AI equals the
current one, or (with a warning) when the requested channel is not a
registered shard; otherwise assign the AI channel (and, for owned objects,
the shard's district as parent), then send the AI entry, the `CHANGING_AI`
notice to the old AI, and re-run the changing-location notifications. -/
def handleSetAi (shards : List (Nat × Shard)) (obj : StateObject)
    (newAi : Nat) : StateObject × List SSMsg :=
  if newAi = obj.aiChannel then (obj, [])
  else
    match shards.lookup newAi with
    | none => (obj, [])
    | some shard =>
        let obj1 := { obj with oldAiChannel := obj.aiChannel, aiChannel := newAi }
        let obj2 :=
          if obj1.ownerId ≠ 0 then
            { obj1 with oldParentId := obj1.parentId, parentId := shard.districtId }
          else obj1
        (obj2,
          [SSMsg.entry (handleSendAiEntry obj2 obj2.aiChannel),
           SSMsg.changingAi obj2.oldAiChannel obj2.doId obj2.oldAiChannel obj2.aiChannel] ++
          managerChangingLocation obj2)

/-- The parsed body of an `OBJECT_GENERATE_WITH_REQUIRED[_OTHER]` message.
The packed payload is carried in parsed form (the catalog's packer is an
opaque oracle): one argument blob per required field, keyed by field number,
plus the `(fieldNumber, payload)` pairs of the other-fields block. -/
structure GenerateData where
  doId : Nat
  parentId : Nat
  zoneId : Nat
  dcId : Nat
  required : List (Nat × Blob)
  other : List (Nat × Blob)
  deriving Repr, DecidableEq

/-- `StateObject.__init__` for a generate: AI channel from the sender, no
owner yet, the required payload stored, and — when `has_other` — only the
`ram`-flagged entries of the other-fields block accepted.  (The channel
subscription side effect lives at the network layer and is not part of the
object state.) -/
def mkStateObject (sender : Nat) (gen : GenerateData) (cls : DClass)
    (hasOther : Bool) : StateObject :=
  { doId := gen.doId
    oldAiChannel := 0
    aiChannel := sender
    oldOwnerId := 0
    ownerId := 0
    oldParentId := 0
    parentId := gen.parentId
    oldZoneId := 0
    zoneId := gen.zoneId
    dcClass := cls
    hasOther := hasOther
    requiredFields := gen.required
    otherFields :=
      if hasOther then
        gen.other.filter fun p => ((cls.fieldByNumber p.1).map DCField.isRam).getD false
      else []
    zoneObjects := [] }

/-- `StateObjectManager.add_object`: refuse silently when the doId is taken,
otherwise insert the object and run its `setup` (the changing-location
announcement). -/
def addObject (objects : List (Nat × StateObject)) (obj : StateObject) :
    List (Nat × StateObject) × List SSMsg :=
  if (objects.lookup obj.doId).isSome then (objects, [])
  else (objects ++ [(obj.doId, obj)], managerChangingLocation obj)

/-- The State Server's registries. -/
structure SSState where
  shards : List (Nat × Shard)
  objects : List (Nat × StateObject)
  deriving Repr, DecidableEq

/-- `StateServer.handle_generate`: an already-existing doId is info-logged
and ignored before anything is built; an unknown class number is warned and
dropped; otherwise the state object is constructed and added. -/
def handleGenerate (catalog : Nat → Option DClass) (st : SSState)
    (sender : Nat) (hasOther : Bool) (gen : GenerateData) :
    SSState × List SSMsg :=
  if (st.objects.lookup gen.doId).isSome then (st, [])
  else
    match catalog gen.dcId with
    | none => (st, [])
    | some cls =>
        let obj := mkStateObject sender gen cls hasOther
        let r := addObject st.objects obj
        ({ st with objects := r.1 }, r.2)

/-- Claim C6.  Duplicate-generate atomicity: a generate naming a doId that
already has a state object is ignored — the whole State Server state
(registry, hence also the existing object's fields, location, owner and AI)
is unchanged and no message is emitted; and every generate preserves
duplicate-freedom of the registry keys, so at most one state object exists
per doId at any time. -/
theorem ss_duplicate_generate_ignored (catalog : Nat → Option DClass)
    (st : SSState) (sender : Nat) (hasOther : Bool) (gen : GenerateData)
    (h : (st.objects.lookup gen.doId).isSome = true) :
    handleGenerate catalog st sender hasOther gen = (st, []) ∧
    (∀ (st2 : SSState) (sender2 : Nat) (ho2 : Bool) (gen2 : GenerateData),
      (st2.objects.map Prod.fst).Nodup →
      ((handleGenerate catalog st2 sender2 ho2 gen2).1.objects.map Prod.fst).Nodup) := by
  constructor
  · unfold handleGenerate
    rw [if_pos h]
  · intro st2 sender2 ho2 gen2 hnd
    unfold handleGenerate
    by_cases h2 : (st2.objects.lookup gen2.doId).isSome
    · rw [if_pos h2]
      exact hnd
    · rw [if_neg h2]
      cases hc : catalog gen2.dcId with
      | none => exact hnd
      | some cls =>
          simp only [addObject]
          by_cases h3 :
            (st2.objects.lookup (mkStateObject sender2 gen2 cls ho2).doId).isSome
          · rw [if_pos h3]
            exact hnd
          · rw [if_neg h3]
            have hmem : (mkStateObject sender2 gen2 cls ho2).doId ∉
                st2.objects.map Prod.fst := by
              apply lookup_none_not_mem_keys
              cases hl : st2.objects.lookup (mkStateObject sender2 gen2 cls ho2).doId with
              | none => rfl
              | some v => simp [hl] at h3
            simp only [List.map_append, List.map_cons, List.map_nil]
            rw [List.nodup_append]
            exact ⟨hnd, List.nodup_singleton _, by
              intro a ha hb
              simp only [List.mem_singleton] at hb
              exact hmem (hb ▸ ha)⟩

/-- Witness for claim C6: the registry already holds doId 10; a second
generate for doId 10 is ignored and the registry keys stay duplicate-free
(checked after a fresh generate of doId 11). -/
theorem ss_duplicate_generate_ignored_witness :
    handleGenerate (fun n => if n = 1 then some (DClass.mk 1 []) else none)
      ⟨[], [(10, ⟨10, 0, 0, 0, 0, 0, 0, 0, 0, ⟨1, []⟩, false, [], [], []⟩)]⟩
      99 false ⟨10, 0, 0, 1, [], []⟩ =
      (⟨[], [(10, ⟨10, 0, 0, 0, 0, 0, 0, 0, 0, ⟨1, []⟩, false, [], [], []⟩)]⟩, []) ∧
    ((handleGenerate (fun n => if n = 1 then some (DClass.mk 1 []) else none)
      ⟨[], [(10, ⟨10, 0, 0, 0, 0, 0, 0, 0, 0, ⟨1, []⟩, false, [], [], []⟩)]⟩
      99 false ⟨11, 0, 0, 1, [], []⟩).1.objects.map Prod.fst).Nodup := by
  have h := ss_duplicate_generate_ignored
    (fun n => if n = 1 then some (DClass.mk 1 []) else none)
    ⟨[], [(10, ⟨10, 0, 0, 0, 0, 0, 0, 0, 0, ⟨1, []⟩, false, [], [], []⟩)]⟩
    99 false ⟨10, 0, 0, 1, [], []⟩ (by decide)
  exact ⟨h.1, h.2 _ 99 false ⟨11, 0, 0, 1, [], []⟩ (by decide)⟩

/-- Claim C10.  `STATESERVER_OBJECT_SET_AI` with a requested channel equal to
the current `aiChannel`, or naming a channel with no registered shard, leaves
the object entirely unchanged (`aiChannel`, `parentId`, `zoneId`, `ownerId`
included) and emits no message — in particular no `OBJECT_LOCATION_ACK`, so
the Client Agent's pending `handle_set_shard` deferred callback (fired only
by `handle_object_location_ack`) never runs for such a request. -/
theorem ss_set_ai_rejected_noop (shards : List (Nat × Shard))
    (obj : StateObject) (newAi : Nat)
    (h : newAi = obj.aiChannel ∨ shards.lookup newAi = none) :
    handleSetAi shards obj newAi = (obj, []) := by
  unfold handleSetAi
  rcases h with h | h
  · rw [if_pos h]
  · by_cases he : newAi = obj.aiChannel
    · rw [if_pos he]
    · rw [if_neg he, h]

/-- Witness for claim C10: an object with AI channel 3 asked to move to AI
channel 9 while the shard registry is empty — nothing changes, nothing is
sent; likewise for re-requesting its current channel 3. -/
theorem ss_set_ai_rejected_noop_witness :
    handleSetAi [] ⟨42, 0, 3, 0, 0, 0, 0, 0, 0, ⟨1, []⟩, false, [], [], []⟩ 9 =
      (⟨42, 0, 3, 0, 0, 0, 0, 0, 0, ⟨1, []⟩, false, [], [], []⟩, []) ∧
    handleSetAi [(8, ⟨8, 5, "d", 0⟩)]
      ⟨42, 0, 3, 0, 0, 0, 0, 0, 0, ⟨1, []⟩, false, [], [], []⟩ 3 =
      (⟨42, 0, 3, 0, 0, 0, 0, 0, 0, ⟨1, []⟩, false, [], [], []⟩, []) :=
  ⟨ss_set_ai_rejected_noop [] ⟨42, 0, 3, 0, 0, 0, 0, 0, 0, ⟨1, []⟩, false, [], [], []⟩ 9
      (Or.inr rfl),
   ss_set_ai_rejected_noop [(8, ⟨8, 5, "d", 0⟩)]
      ⟨42, 0, 3, 0, 0, 0, 0, 0, 0, ⟨1, []⟩, false, [], [], []⟩ 3 (Or.inl rfl)⟩

/-! ## Client Agent (`realtime/clientagent.py`): interest management

The quiet-zone sentinel `OTP_ZONE_ID_OLD_QUIET_ZONE` comes from
`game/OtpDoGlobals.py`, which is not among the sources at hand; modelled from
the spec ("the sentinel zone id that carries no player avatars"), with the
value of `ToontownGlobals.QuietZone`.  The world-topology helper `ZoneUtil`
(playground vs street classification, branch zone computation) is likewise
not among the sources; it is modelled from the spec as an abstract record the
theorems quantify over. -/

def OTP_ZONE_ID_OLD_QUIET_ZONE : Nat := 1

/-- Modelled from the spec: the `ZoneUtil` world-topology helper — classify a
zone id as playground, report whether its where-name is "street", and derive
a street zone's branch zone by discarding the within-branch low bits. -/
structure ZoneTopology where
  isPlayground : Nat → Bool
  whereNameIsStreet : Nat → Bool
  branchZone : Nat → Nat

/-- `Client.get_in_street_branch`: a non-playground zone whose where-name is
"street". -/
def getInStreetBranch (topo : ZoneTopology) (zoneId : Nat) : Bool :=
  if !topo.isPlayground zoneId then topo.whereNameIsStreet zoneId else false

/-- `InterestManager.add_interest_zone`: append if absent. -/
def addInterestZone (zones : List Nat) (z : Nat) : List Nat :=
  if z ∈ zones then zones else zones ++ [z]

/-- `InterestManager.remove_interest_zone`: refuse when absent, and always
refuse the quiet-zone sentinel. -/
def removeInterestZone (zones : List Nat) (z : Nat) : List Nat :=
  if z ∉ zones then zones
  else if z = OTP_ZONE_ID_OLD_QUIET_ZONE then zones
  else zones.erase z

/-- The per-connection interest state of a `Client` handler. -/
structure ClientState where
  interestZones : List Nat
  seenObjects : List (Nat × List Nat)
  ownedObjects : List Nat
  pendingObjects : List Nat
  inStreetBranch : Bool
  branchZone : Nat
  branchInterestZones : List Nat
  deriving Repr, DecidableEq

/-- A fresh `Client`: interest starts as `[OTP_ZONE_ID_OLD_QUIET_ZONE]`. -/
def freshClient : ClientState :=
  ⟨[OTP_ZONE_ID_OLD_QUIET_ZONE], [], [], [], false, 0, []⟩

/-- Messages the interest machinery emits. -/
inductive CAMsg where
  /-- `CLIENT_OBJECT_DELETE_RESP` to the client. -/
  | objectDeleteResp (doId : Nat)
  /-- `OBJECT_GET_ZONES_OBJECTS` to the avatar's doId. -/
  | getZonesObjects (zones : List Nat)
  deriving Repr, DecidableEq

/-- `Client.remove_seen_object`: erase the doId from every zone's seen list
and drop every zone whose list is (now) empty. -/
def removeSeenObject (seen : List (Nat × List Nat)) (doId : Nat) :
    List (Nat × List Nat) :=
  (seen.map fun zp => (zp.1, zp.2.erase doId)).filter fun zp => !zp.2.isEmpty

/-- The `for do_id in seen_objects` deletion loop of
`handle_set_zone_callback`, with Python's index-based iteration over the live
list: `send_client_object_delete_resp` removes the current element from the
very list being iterated, so the element sliding into its place is skipped.
The fuel is the list length at loop entry, which bounds the iterations. -/
def deleteSeenLoop : Nat → List (Nat × List Nat) → List Nat → Nat → Nat →
    List (Nat × List Nat) × List CAMsg
  | 0, seen, _, _, _ => (seen, [])
  | fuel + 1, seen, owned, oldZone, i =>
      let l := (seen.lookup oldZone).getD []
      if h : i < l.length then
        let d := l.get ⟨i, h⟩
        if d ∈ owned then deleteSeenLoop fuel seen owned oldZone (i + 1)
        else
          let r := deleteSeenLoop fuel (removeSeenObject seen d) owned oldZone (i + 1)
          (r.1, CAMsg.objectDeleteResp d :: r.2)
      else (seen, [])

/-- The `xrange(branch_zone + 1, branch_zone + 50)` loop of
`handle_set_zone_callback`: the 49 zone ids following the branch zone. -/
def streetBranchZones (bz : Nat) : List Nat :=
  (List.range 49).map fun k => bz + 1 + k

/-- The shared tail of `handle_set_zone_callback` (from
`self._interest_manager.add_interest_zone(new_zone_id)` on): add the new zone
and — when it is not the quiet zone — re-add the quiet-zone sentinel; send
deletes for the non-owned objects seen in the zone just left and drop that
zone's seen entry; finally request the objects of every zone now of
interest. -/
def setZoneCommonTail (st : ClientState) (oldZone newZone : Nat) :
    ClientState × List CAMsg :=
  let zones1 := addInterestZone st.interestZones newZone
  let zones2 :=
    if newZone ≠ OTP_ZONE_ID_OLD_QUIET_ZONE then
      addInterestZone zones1 OTP_ZONE_ID_OLD_QUIET_ZONE
    else zones1
  let st1 := { st with interestZones := zones2 }
  let del :=
    if (st1.seenObjects.lookup oldZone).isSome && oldZone != newZone then
      let l := (st1.seenObjects.lookup oldZone).getD []
      let r := deleteSeenLoop l.length st1.seenObjects st1.ownedObjects oldZone 0
      (eraseKey r.1 oldZone, r.2)
    else (st1.seenObjects, [])
  let st2 := { st1 with seenObjects := del.1 }
  (st2, del.2 ++ [CAMsg.getZonesObjects st2.interestZones])

/-- `Client.handle_set_zone_callback` (the old-style street-branch variant in
the source): for a non-street target, drop the street-branch bookkeeping if
leaving a branch and remove the old zone; for a street target entered from
outside a branch, add the branch zone and the 49 zone ids following it; for a
street target while already in the branch, leave all state unchanged and only
request the interest zones minus the branch zone.  No visibility file is
consulted anywhere. -/
def handleSetZoneCallback (topo : ZoneTopology) (st : ClientState)
    (oldZone newZone : Nat) : ClientState × List CAMsg :=
  if !(getInStreetBranch topo newZone) then
    let st1 :=
      if st.inStreetBranch then
        let zones1 := removeInterestZone st.interestZones st.branchZone
        let step := st.branchInterestZones.foldl
          (fun (acc : List (Nat × List Nat) × List Nat) z =>
            (eraseKey acc.1 z, removeInterestZone acc.2 z))
          (st.seenObjects, zones1)
        { st with
            interestZones := step.2
            seenObjects := step.1
            branchZone := 0
            branchInterestZones := []
            inStreetBranch := false }
      else st
    let st2 := { st1 with interestZones := removeInterestZone st1.interestZones oldZone }
    setZoneCommonTail st2 oldZone newZone
  else
    if !st.inStreetBranch then
      let bz := topo.branchZone newZone
      let zones1 := addInterestZone st.interestZones bz
      let branchZones := streetBranchZones bz
      let zones2 := branchZones.foldl addInterestZone zones1
      let st1 :=
        { st with
            interestZones := zones2
            branchZone := bz
            branchInterestZones := st.branchInterestZones ++ branchZones
            inStreetBranch := true }
      setZoneCommonTail st1 oldZone newZone
    else
      (st, [CAMsg.getZonesObjects (st.interestZones.erase st.branchZone)])

/-- The effective interest set the specification prescribes for a zone
change: `{z, QUIET}` for a playground, and the visibility file's visible-zone
list united with the branch zone, the zone itself and `QUIET` for a street
zone. -/
def specEffectiveInterestZones (topo : ZoneTopology) (vis : Nat → List Nat)
    (z : Nat) : List Nat :=
  if topo.isPlayground z then [z, OTP_ZONE_ID_OLD_QUIET_ZONE]
  else vis z ++ [topo.branchZone z, z, OTP_ZONE_ID_OLD_QUIET_ZONE]

/-! ### Membership lemmas for the interest operations -/

theorem mem_addInterestZone (zones : List Nat) (z w : Nat) :
    w ∈ addInterestZone zones z ↔ w ∈ zones ∨ w = z := by
  unfold addInterestZone
  by_cases h : z ∈ zones
  · rw [if_pos h]
    constructor
    · exact Or.inl
    · rintro (hw | rfl)
      · exact hw
      · exact h
  · rw [if_neg h]
    simp

theorem quiet_mem_removeInterestZone (zones : List Nat) (z : Nat)
    (h : OTP_ZONE_ID_OLD_QUIET_ZONE ∈ zones) :
    OTP_ZONE_ID_OLD_QUIET_ZONE ∈ removeInterestZone zones z := by
  unfold removeInterestZone
  by_cases h1 : z ∈ zones
  · rw [if_neg (by simpa using h1)]
    by_cases h2 : z = OTP_ZONE_ID_OLD_QUIET_ZONE
    · rw [if_pos h2]; exact h
    · rw [if_neg h2]
      exact (List.mem_erase_of_ne fun he => h2 he.symm).mpr h
  · rw [if_pos h1]
    exact h

theorem mem_foldl_addInterestZone (bs : List Nat) :
    ∀ (zones : List Nat) (w : Nat),
    w ∈ bs.foldl addInterestZone zones ↔ w ∈ zones ∨ w ∈ bs := by
  induction bs with
  | nil => simp
  | cons b t ih =>
      intro zones w
      rw [List.foldl_cons, ih, mem_addInterestZone]
      simp only [List.mem_cons]
      tauto

theorem quiet_mem_removal_foldl (bs : List Nat) :
    ∀ (acc : List (Nat × List Nat) × List Nat),
    OTP_ZONE_ID_OLD_QUIET_ZONE ∈ acc.2 →
    OTP_ZONE_ID_OLD_QUIET_ZONE ∈
      (bs.foldl (fun (acc : List (Nat × List Nat) × List Nat) z =>
        (eraseKey acc.1 z, removeInterestZone acc.2 z)) acc).2 := by
  induction bs with
  | nil => exact fun _ h => h
  | cons b t ih =>
      intro acc h
      rw [List.foldl_cons]
      exact ih _ (quiet_mem_removeInterestZone acc.2 b h)

theorem quiet_mem_setZoneCommonTail (st : ClientState) (oldZone newZone : Nat)
    (h : OTP_ZONE_ID_OLD_QUIET_ZONE ∈ st.interestZones) :
    OTP_ZONE_ID_OLD_QUIET_ZONE ∈
      (setZoneCommonTail st oldZone newZone).1.interestZones := by
  unfold setZoneCommonTail
  by_cases hq : newZone = OTP_ZONE_ID_OLD_QUIET_ZONE
  · subst hq
    simp [mem_addInterestZone, h]
  · simp [hq, mem_addInterestZone]

theorem quiet_mem_handleSetZoneCallback (topo : ZoneTopology) (st : ClientState)
    (oldZone newZone : Nat)
    (h : OTP_ZONE_ID_OLD_QUIET_ZONE ∈ st.interestZones) :
    OTP_ZONE_ID_OLD_QUIET_ZONE ∈
      (handleSetZoneCallback topo st oldZone newZone).1.interestZones := by
  unfold handleSetZoneCallback
  by_cases hs : getInStreetBranch topo newZone
  · rw [if_neg (by simp [hs])]
    by_cases hb : st.inStreetBranch
    · rw [if_neg (by simp [hb])]
      exact h
    · rw [if_pos (by simp [hb])]
      apply quiet_mem_setZoneCommonTail
      simp only []
      rw [mem_foldl_addInterestZone, mem_addInterestZone]
      exact Or.inl (Or.inl h)
  · rw [if_pos (by simp [hs])]
    apply quiet_mem_setZoneCommonTail
    simp only []
    apply quiet_mem_removeInterestZone
    by_cases hb : st.inStreetBranch
    · rw [if_pos hb]
      exact quiet_mem_removal_foldl st.branchInterestZones _
        (quiet_mem_removeInterestZone st.interestZones st.branchZone h)
    · rw [if_neg hb]
      exact h

theorem setZoneCommonTail_interest (st : ClientState) (oldZone newZone : Nat) :
    (setZoneCommonTail st oldZone newZone).1.interestZones =
      if newZone ≠ OTP_ZONE_ID_OLD_QUIET_ZONE then
        addInterestZone (addInterestZone st.interestZones newZone)
          OTP_ZONE_ID_OLD_QUIET_ZONE
      else addInterestZone st.interestZones newZone := rfl

/-! ### Claims C7 and C8 -/

/-- The interest-affecting operations of a client connection. -/
inductive CAOp where
  | addInterest (z : Nat)
  | removeInterest (z : Nat)
  | setZoneCallback (oldZone newZone : Nat)
  deriving Repr, DecidableEq

/-- Apply one operation to the client state. -/
def applyCAOp (topo : ZoneTopology) (st : ClientState) : CAOp → ClientState
  | .addInterest z =>
      { st with interestZones := addInterestZone st.interestZones z }
  | .removeInterest z =>
      { st with interestZones := removeInterestZone st.interestZones z }
  | .setZoneCallback oldZone newZone =>
      (handleSetZoneCallback topo st oldZone newZone).1

/-- Run a sequence of interest operations from a fresh client. -/
def applyCAOps (topo : ZoneTopology) (ops : List CAOp) : ClientState :=
  ops.foldl (applyCAOp topo) freshClient

theorem quiet_mem_applyCAOp (topo : ZoneTopology) (st : ClientState) (op : CAOp)
    (h : OTP_ZONE_ID_OLD_QUIET_ZONE ∈ st.interestZones) :
    OTP_ZONE_ID_OLD_QUIET_ZONE ∈ (applyCAOp topo st op).interestZones := by
  cases op with
  | addInterest z =>
      simp only [applyCAOp]
      rw [mem_addInterestZone]
      exact Or.inl h
  | removeInterest z =>
      simp only [applyCAOp]
      exact quiet_mem_removeInterestZone st.interestZones z h
  | setZoneCallback oldZone newZone =>
      simp only [applyCAOp]
      exact quiet_mem_handleSetZoneCallback topo st oldZone newZone h

theorem quiet_mem_foldl_applyCAOp (topo : ZoneTopology) (ops : List CAOp) :
    ∀ st : ClientState, OTP_ZONE_ID_OLD_QUIET_ZONE ∈ st.interestZones →
    OTP_ZONE_ID_OLD_QUIET_ZONE ∈ (ops.foldl (applyCAOp topo) st).interestZones := by
  induction ops with
  | nil => exact fun _ h => h
  | cons op t ih =>
      intro st h
      rw [List.foldl_cons]
      exact ih _ (quiet_mem_applyCAOp topo st op h)

/-- Claim C8.  Quiet-zone membership invariant: the sentinel is in the
interest set of a fresh client; `add_interest_zone` and
`remove_interest_zone` never remove it (`remove_interest_zone` refuses the
sentinel outright); `handle_set_zone_callback` keeps it (and re-adds it on
every path that targets a non-quiet zone); hence along any sequence of
interest operations from a fresh client the sentinel stays a member — in
particular it is a member whenever any non-sentinel zone is. -/
theorem ca_quiet_zone_invariant :
    OTP_ZONE_ID_OLD_QUIET_ZONE ∈ freshClient.interestZones ∧
    (∀ zones z, OTP_ZONE_ID_OLD_QUIET_ZONE ∈ zones →
      OTP_ZONE_ID_OLD_QUIET_ZONE ∈ addInterestZone zones z) ∧
    (∀ zones z, OTP_ZONE_ID_OLD_QUIET_ZONE ∈ zones →
      OTP_ZONE_ID_OLD_QUIET_ZONE ∈ removeInterestZone zones z) ∧
    (∀ zones, removeInterestZone zones OTP_ZONE_ID_OLD_QUIET_ZONE = zones) ∧
    (∀ topo st oldZone newZone, OTP_ZONE_ID_OLD_QUIET_ZONE ∈ st.interestZones →
      OTP_ZONE_ID_OLD_QUIET_ZONE ∈
        (handleSetZoneCallback topo st oldZone newZone).1.interestZones) ∧
    (∀ topo ops, OTP_ZONE_ID_OLD_QUIET_ZONE ∈ (applyCAOps topo ops).interestZones) := by
  refine ⟨by simp [freshClient], ?_, ?_, ?_, ?_, ?_⟩
  · intro zones z h
    rw [mem_addInterestZone]
    exact Or.inl h
  · exact fun zones z h => quiet_mem_removeInterestZone zones z h
  · intro zones
    unfold removeInterestZone
    by_cases h : OTP_ZONE_ID_OLD_QUIET_ZONE ∈ zones <;> simp [h]
  · exact fun topo st o n h => quiet_mem_handleSetZoneCallback topo st o n h
  · exact fun topo ops =>
      quiet_mem_foldl_applyCAOp topo ops freshClient (by simp [freshClient])

/-- Witness for claim C8: a concrete run — add a playground zone, complete a
zone change into a street, then remove the playground zone — ends with the
sentinel still in the interest set; removing the sentinel from a concrete
set is refused. -/
theorem ca_quiet_zone_invariant_witness :
    OTP_ZONE_ID_OLD_QUIET_ZONE ∈ (applyCAOps
      ⟨fun z => z % 1000 == 0, fun z => !(z % 1000 == 0), fun z => z - z % 100⟩
      [CAOp.addInterest 2000, CAOp.setZoneCallback 0 2100,
       CAOp.removeInterest 2000]).interestZones ∧
    removeInterestZone [1, 2000] OTP_ZONE_ID_OLD_QUIET_ZONE = [1, 2000] ∧
    OTP_ZONE_ID_OLD_QUIET_ZONE ∈ addInterestZone [1] 5 :=
  ⟨ca_quiet_zone_invariant.2.2.2.2.2
      ⟨fun z => z % 1000 == 0, fun z => !(z % 1000 == 0), fun z => z - z % 100⟩
      [CAOp.addInterest 2000, CAOp.setZoneCallback 0 2100,
       CAOp.removeInterest 2000],
   ca_quiet_zone_invariant.2.2.2.1 [1, 2000],
   ca_quiet_zone_invariant.2.1 [1] 5 (by decide)⟩

set_option maxRecDepth 40000 in
/-- Counterexample to claim C7 as stated.  A fresh client completes a
`SET_ZONE` into street zone 2100 (a street zone with branch 2100 in the
modelled topology).  The code adds the whole branch range 2101–2149, so zone
2102 ends up in `interestZones`; the spec's effective interest set for a
visibility file giving `zoneVis[2100] = [2100, 2101]` does not contain 2102 —
the two sets differ (the code never consults a visibility file). -/
theorem ca_effective_interest_counterexample :
    2102 ∈ (handleSetZoneCallback
      ⟨fun z => z % 1000 == 0, fun z => !(z % 1000 == 0), fun z => z - z % 100⟩
      freshClient 0 2100).1.interestZones ∧
    2102 ∉ specEffectiveInterestZones
      ⟨fun z => z % 1000 == 0, fun z => !(z % 1000 == 0), fun z => z - z % 100⟩
      (fun z => if z = 2100 then [2100, 2101] else []) 2100 := by
  exact ⟨by decide, by decide⟩

/-- Claim C7, amended.  After a completed `SET_ZONE` into a street zone while
not already in a street branch, the client's `interestZones` is its previous
value united with the branch zone, the 49 zone ids following the branch zone,
the new zone and the quiet-zone sentinel — nothing is removed, and no
visibility file is consulted (none exists in the code path). -/
theorem ca_effective_interest_amended (topo : ZoneTopology) (st : ClientState)
    (oldZone newZone : Nat)
    (hstreet : getInStreetBranch topo newZone = true)
    (hnotin : st.inStreetBranch = false) :
    ∀ w, w ∈ (handleSetZoneCallback topo st oldZone newZone).1.interestZones ↔
      (w ∈ st.interestZones ∨ w = topo.branchZone newZone ∨
       w ∈ streetBranchZones (topo.branchZone newZone) ∨ w = newZone ∨
       w = OTP_ZONE_ID_OLD_QUIET_ZONE) := by
  intro w
  unfold handleSetZoneCallback
  rw [if_neg (by simp [hstreet]), if_pos (by simp [hnotin])]
  rw [setZoneCommonTail_interest]
  by_cases hq : newZone = OTP_ZONE_ID_OLD_QUIET_ZONE
  · rw [if_neg (by simp [hq])]
    subst hq
    rw [mem_addInterestZone, mem_foldl_addInterestZone, mem_addInterestZone]
    tauto
  · rw [if_pos hq]
    rw [mem_addInterestZone, mem_addInterestZone, mem_foldl_addInterestZone,
      mem_addInterestZone]
    tauto

/-- Witness for the amended claim C7 at concrete input: zone 2102 is in the
interest set after a fresh client's zone change to street 2100 exactly
because it lies in the 49-zone branch range. -/
theorem ca_effective_interest_amended_witness :
    2102 ∈ (handleSetZoneCallback
      ⟨fun z => z % 1000 == 0, fun z => !(z % 1000 == 0), fun z => z - z % 100⟩
      freshClient 0 2100).1.interestZones ↔
      (2102 ∈ freshClient.interestZones ∨
       2102 = (ZoneTopology.mk (fun z => z % 1000 == 0)
         (fun z => !(z % 1000 == 0)) (fun z => z - z % 100)).branchZone 2100 ∨
       2102 ∈ streetBranchZones ((ZoneTopology.mk (fun z => z % 1000 == 0)
         (fun z => !(z % 1000 == 0)) (fun z => z - z % 100)).branchZone 2100) ∨
       2102 = 2100 ∨ 2102 = OTP_ZONE_ID_OLD_QUIET_ZONE) :=
  ca_effective_interest_amended
    ⟨fun z => z % 1000 == 0, fun z => !(z % 1000 == 0), fun z => z - z % 100⟩
    freshClient 0 2100 (by decide) rfl 2102

/-! ## Database Server (`realtime/database.py`), claim C9

The file backend stores one record per decimal-doId filename plus a tracker
file holding the `next` counter.  The id allocator is panda's external
`UniqueIdAllocator`; modelled from the spec: "A single UniqueIdAllocator over
`[minDoId, maxDoId]` hands out ids", with exhaustion yielding the falsy id the
code checks for (`if not self._do_id`).  Field names and class names are
identified with their catalog numbers (the catalog maps them bijectively). -/

/-- A persisted object file: `{dclass, do_id, fields}`. -/
structure DBFile where
  dclassNumber : Nat
  doId : Nat
  fields : List (Nat × Blob)
  deriving Repr, DecidableEq

/-- The database backend state: the id range, the allocator position, the
set of currently open files (`DatabaseManager._files`, which is what
`has_file` consults), the on-disk store, and the tracker's `next` value. -/
structure DBBackend where
  minId : Nat
  maxId : Nat
  nextFree : Nat
  openFiles : List Nat
  disk : List (Nat × DBFile)
  trackerNext : Nat
  deriving Repr, DecidableEq

/-- Modelled from the spec: `UniqueIdAllocator.allocate` — hand out the next
free id of the range, or a falsy 0 when the range is exhausted. -/
def allocateId (b : DBBackend) : Nat × DBBackend :=
  if b.maxId < b.nextFree then (0, b)
  else (b.nextFree, { b with nextFree := b.nextFree + 1 })

/-- The `DBSERVER_CREATE_OBJECT_RESP(ctx, doId)` datagram the single
`cleanup` call of the create FSM hands to `_create_object_callback`. -/
structure DBCreateResp where
  ctx : Nat
  doId : Nat
  deriving Repr, DecidableEq

/-- The default-fields pass of `DatabaseCreateFSM.enterStart`: walk the
class's inherited fields and add the default value of every `db`-flagged
field with a default that the request did not provide. -/
def dbCreateDefaults (cls : DClass) (given : List (Nat × Blob)) :
    List (Nat × Blob) :=
  cls.fields.foldl
    (fun acc f =>
      if (acc.lookup f.number).isSome then acc
      else if !f.isDb || !f.hasDefaultValue then acc
      else acc ++ [(f.number, f.defaultValue)])
    given

/-- `DatabaseCreateFSM.enterStart` followed by `_create_object_callback`:
allocate a doId (failure → `RESP(ctx, 0)`), refuse an allocated doId whose
file is open (`has_file` → `RESP(ctx, 0)`), otherwise write the file with the
request's fields plus defaults, persist the tracker's `next` as `doId + 1`,
and answer `RESP(ctx, doId)`.  An unknown class number is a fatal
`notify.error` path that produces no response (`none`).  Exactly one `RESP`
is produced per request otherwise: every path calls `cleanup` exactly once. -/
def dbCreateObject (catalog : Nat → Option DClass) (b : DBBackend)
    (ctx dcId : Nat) (fieldData : List (Nat × Blob)) :
    Option (DBBackend × DBCreateResp) :=
  match catalog dcId with
  | none => none
  | some cls =>
      let r := allocateId b
      if r.1 = 0 then some (r.2, DBCreateResp.mk ctx 0)
      else if r.2.openFiles.contains r.1 then some (r.2, DBCreateResp.mk ctx 0)
      else
        let file := DBFile.mk cls.number r.1 (dbCreateDefaults cls fieldData)
        some
          ({ r.2 with
              disk := (r.1, file) :: eraseKey r.2.disk r.1
              trackerNext := r.1 + 1 },
            DBCreateResp.mk ctx r.1)

/-- Claim C9.  Database create: every `DBSERVER_CREATE_OBJECT` request whose
class number resolves (the fatal unknown-class path excepted) produces
exactly one `DBSERVER_CREATE_OBJECT_RESP`, carrying the request's context,
with `doId == 0` exactly when creation fails — id allocation failure (range
exhausted) or an existing (open) file for the allocated doId; on success the
persistent tracker's `next` counter is written as the created doId + 1. -/
theorem db_create_object_resp (catalog : Nat → Option DClass) (b : DBBackend)
    (ctx dcId : Nat) (fieldData : List (Nat × Blob)) (cls : DClass)
    (hcls : catalog dcId = some cls) (hpos : 0 < b.nextFree) :
    ∃ (b2 : DBBackend) (resp : DBCreateResp),
      dbCreateObject catalog b ctx dcId fieldData = some (b2, resp) ∧
      resp.ctx = ctx ∧
      (resp.doId = 0 ↔
        (b.maxId < b.nextFree ∨ b.openFiles.contains b.nextFree = true)) ∧
      (resp.doId ≠ 0 → resp.doId = b.nextFree ∧ b2.trackerNext = resp.doId + 1) := by
  unfold dbCreateObject allocateId
  rw [hcls]
  by_cases hex : b.maxId < b.nextFree
  · refine ⟨b, DBCreateResp.mk ctx 0, ?_, rfl, ?_, ?_⟩
    · simp [hex]
    · simp [hex]
    · intro h
      exact absurd rfl h
  · have hne : b.nextFree ≠ 0 := Nat.pos_iff_ne_zero.mp hpos
    by_cases hopen : b.openFiles.contains b.nextFree
    · have hopen' : b.nextFree ∈ b.openFiles := by simpa using hopen
      refine ⟨{ b with nextFree := b.nextFree + 1 }, DBCreateResp.mk ctx 0,
        ?_, rfl, ?_, ?_⟩
      · simp [hex, hne, hopen']
      · simpa [hex] using hopen'
      · intro h
        exact absurd rfl h
    · refine ⟨{ b with
          nextFree := b.nextFree + 1
          disk := (b.nextFree, DBFile.mk cls.number b.nextFree
            (dbCreateDefaults cls fieldData)) :: eraseKey b.disk b.nextFree
          trackerNext := b.nextFree + 1 },
        DBCreateResp.mk ctx b.nextFree, ?_, rfl, ?_, ?_⟩
      · have hopen' : b.nextFree ∉ b.openFiles := by simpa using hopen
        simp [hex, hne, hopen']
      · have hopen' : b.nextFree ∉ b.openFiles := by simpa using hopen
        simpa [hex, hne] using hopen'
      · intro _
        exact ⟨rfl, rfl⟩

/-- Witness for claim C9: a backend with range 1000–1009, allocator at 1000,
nothing open — creating an object with context 5 succeeds with doId 1000 and
writes the tracker's next counter as 1001. -/
theorem db_create_object_resp_witness :
    ∃ (b2 : DBBackend) (resp : DBCreateResp),
      dbCreateObject (fun n => if n = 1 then some (DClass.mk 1 []) else none)
        ⟨1000, 1009, 1000, [], [], 1000⟩ 5 1 [] = some (b2, resp) ∧
      resp.ctx = 5 ∧
      (resp.doId = 0 ↔
        ((1000 : Nat) < 1000 ∨ ([] : List Nat).contains 1000 = true)) ∧
      (resp.doId ≠ 0 → resp.doId = 1000 ∧ b2.trackerNext = resp.doId + 1) := by
  have h := db_create_object_resp
    (fun n => if n = 1 then some (DClass.mk 1 []) else none)
    ⟨1000, 1009, 1000, [], [], 1000⟩ 5 1 [] (DClass.mk 1 [])
    (by simp) (by decide)
  simpa using h

end ToontownOTP
